import Mathlib

/-!
Shallow embedding of the shelly-automation repository (Python) in Lean 4.

Source files embedded here:
  src/config.py              (Schedule, ShellyConfig and its pydantic validators)
  src/schedule_calculator.py (calculate_schedule_time, time_to_cron)
  src/shelly_client.py       (ShellyClient: _rpc_call, list_schedules,
                              delete_schedule, delete_all_schedules, create_schedule)
  src/main.py                (the reconcile-and-verify workflow: main)

Python strings are modelled as Lean String (lists of characters); Python ints
as Lean Int; datetimes as an explicit record of calendar fields; the HTTP
transport as an oracle assigning a response to each request in issue order.
-/

namespace Shelly

/-! ## Python string primitives used by the source

The source uses str.split(sep), int(s) and f-string decimal rendering.
These are modelled here on lists of characters, following CPython semantics.
-/

/-- Model of Python str.split(sep) for a one-character separator:
splitting the empty string yields one empty field, and each separator
occurrence opens a new field. -/
def pySplit (sep : Char) : List Char → List (List Char)
  | [] => [[]]
  | c :: rest =>
    if c = sep then [] :: pySplit sep rest
    else
      match pySplit sep rest with
      | [] => [[c]]
      | g :: gs => (c :: g) :: gs

/-- Whitespace characters stripped by Python int(str) before parsing
(ASCII portion; CPython also strips some unicode space characters,
which no input of this repository contains). -/
def isPyWs (c : Char) : Bool :=
  c = ' ' || c = '\t' || c = '\n' || c = '\r' || c = '\x0b' || c = '\x0c'

/-- Strip leading and trailing whitespace, as Python int(str) does. -/
def trimWs (cs : List Char) : List Char :=
  ((cs.dropWhile isPyWs).reverse.dropWhile isPyWs).reverse

/-- A nonempty digit string in which an underscore may occur only between
two digits: the grammar accepted by Python int(str) after sign/whitespace
handling (PEP 515 underscore grouping). -/
def pyDigitsOk : List Char → Bool
  | [] => false
  | [c] => c.isDigit
  | c :: c2 :: rest =>
    if c2 = '_' then c.isDigit && pyDigitsOk rest
    else c.isDigit && pyDigitsOk (c2 :: rest)

/-- Decimal value of a digit string, skipping underscore separators. -/
def digitsVal (cs : List Char) : Nat :=
  cs.foldl (fun acc c => if c = '_' then acc else acc * 10 + (c.toNat - 48)) 0

/-- Model of Python int(s): strip whitespace, accept an optional sign,
then a digit string (with underscore grouping); ValueError is modelled
as none. -/
def pyIntChars (cs : List Char) : Option Int :=
  match trimWs cs with
  | [] => none
  | c :: rest =>
    if c = '+' then
      if pyDigitsOk rest then some (digitsVal rest : Int) else none
    else if c = '-' then
      if pyDigitsOk rest then some (-(digitsVal rest : Int)) else none
    else if pyDigitsOk (c :: rest) then some (digitsVal (c :: rest) : Int)
    else none

/-- Decimal rendering of one digit. -/
def digitChar (n : Nat) : Char := Char.ofNat (48 + n)

/-- Fuel-indexed accumulator loop for decimal rendering of a Nat;
the fuel argument only bounds the recursion depth. -/
def natToDigitsAux : Nat → Nat → List Char → List Char
  | 0, _, acc => acc
  | fuel + 1, n, acc =>
    if n = 0 then acc else natToDigitsAux fuel (n / 10) (digitChar (n % 10) :: acc)

/-- Decimal rendering of a Nat, as Python str(int) produces inside an
f-string (for the nonnegative values rendered by this repository). -/
def natToDigits (n : Nat) : List Char :=
  if n = 0 then ['0'] else natToDigitsAux (n + 1) n []

/-! ## Datetimes

An aware Python datetime in the configured zone is modelled by its calendar
fields; the year/month/day structure is collapsed into one day index, which
is enough because the source only reads hour/minute/second and only moves a
datetime by adding a timedelta of whole minutes (Python datetime + timedelta
is wall-clock arithmetic on the fields, the tzinfo is carried unchanged). -/

structure DateTime where
  day : Int
  hour : Nat
  minute : Nat
  second : Nat
  microsecond : Nat
deriving DecidableEq

/-- Seconds since the (abstract) epoch of the wall-clock instant. -/
def DateTime.toSeconds (dt : DateTime) : Int :=
  dt.day * 86400 + dt.hour * 3600 + dt.minute * 60 + dt.second

/-- Model of dt + timedelta(minutes=o) on an aware datetime: shift the
wall-clock fields by o minutes with carry across hours and days;
the microsecond field is untouched by a whole-minute shift. -/
def addMinutes (dt : DateTime) (o : Int) : DateTime :=
  let t : Int := dt.toSeconds + o * 60
  { day := t / 86400
    hour := (t % 86400 / 3600).toNat
    minute := (t % 3600 / 60).toNat
    second := (t % 60).toNat
    microsecond := dt.microsecond }

/-- Python exceptions raised by the embedded code paths. -/
inductive PyErr where
  | valueError
  | typeError
  | attributeError
  | requestException
  | zoneInfoNotFound
  | validationError
deriving DecidableEq

/-- Model of dt.replace(hour=h, minute=m, second=0, microsecond=0):
datetime.replace validates the field ranges and raises ValueError when
hour is outside 0..23 or minute outside 0..59. -/
def dtReplaceHM (dt : DateTime) (h m : Int) : Except PyErr DateTime :=
  if 0 ≤ h ∧ h ≤ 23 ∧ 0 ≤ m ∧ m ≤ 59 then
    .ok { dt with hour := h.toNat, minute := m.toNat, second := 0, microsecond := 0 }
  else .error .valueError

/-! ## Data model (src/config.py) -/

/-- The Literal["on", "off"] action of a schedule entry. -/
inductive SwitchAction where
  | on
  | off
deriving DecidableEq

/-- config.py class Schedule: a single schedule definition. -/
structure Schedule where
  time : String
  action : SwitchAction
  offset : Int
deriving DecidableEq

/-- config.py class ShellyConfig after successful pydantic validation. -/
structure ShellyConfig where
  shelly_ip : String
  switch_id : Int
  latitude : Rat
  longitude : Rat
  timezone : String
  schedules : List Schedule
  log_level : String
  log_file : String

/-- Sunrise and sunset instants as returned by calculate_sun_times. -/
structure SunTimes where
  sunrise : DateTime
  sunset : DateTime

/-! ## ScheduleResolver (src/schedule_calculator.py) -/

/-- schedule_calculator.calculate_schedule_time. The tz parameter of the
source only serves to build datetime.now(tz); that value is passed here
directly as now (the zone name is validated earlier in the workflow by
calculate_sun_times). The source tests schedule.time in
["sunrise", "sunset"] and indexes sun_times with it; the else branch runs
hour, minute = map(int, schedule.time.split(":")) — a split that does not
produce exactly two int-parseable fields raises ValueError (from int() or
from tuple unpacking) — and then
datetime.now(tz).replace(hour=hour, minute=minute, second=0, microsecond=0),
whose range check can also raise ValueError. -/
def calculate_schedule_time (schedule : Schedule) (sun_times : SunTimes)
    (now : DateTime) : Except PyErr DateTime :=
  if schedule.time = "sunrise" then
    .ok (addMinutes sun_times.sunrise schedule.offset)
  else if schedule.time = "sunset" then
    .ok (addMinutes sun_times.sunset schedule.offset)
  else
    match (pySplit ':' schedule.time.data).map pyIntChars with
    | [some h, some m] => dtReplaceHM now h m
    | _ => .error .valueError

/-- schedule_calculator.time_to_cron: the f-string
0 {dt.minute} {dt.hour} * * * with the minute and hour rendered in
decimal. -/
def time_to_cron (dt : DateTime) : String :=
  ⟨'0' :: ' ' :: (natToDigits dt.minute ++ ' ' ::
    (natToDigits dt.hour ++ (' ' :: '*' :: ' ' :: '*' :: ' ' :: '*' :: [])))⟩

/-! ## DeviceScheduleGateway (src/shelly_client.py)

A decoded JSON response payload is modelled by PyData. The transport
(requests.get / requests.post, raise_for_status, response.json) either
yields a decoded payload or fails; every failure mode up to and including
obtaining the decoded JSON (connection error, timeout, HTTP error status,
JSON decode error) raises requests.RequestException and is collapsed into
the failure constructor. The device is an oracle assigning a transport
outcome to each request in issue order; the state threaded through the
client records how many requests have been issued and their trace. -/

/-- A decoded JSON value (Python object) as handled by the client. -/
inductive PyData where
  | none
  | bool (b : Bool)
  | int (n : Int)
  | str (s : String)
  | list (xs : List PyData)
  | dict (fields : List (String × PyData))

/-- First-match association lookup, modelling Python dict access
(the device sends JSON objects, whose keys are unique). -/
def lookupStr : List (String × PyData) → String → Option PyData
  | [], _ => Option.none
  | (k, v) :: rest, key => if k = key then some v else lookupStr rest key

/-- Model of d.get(key, default) : raises AttributeError when d is not a
dict (get is a dict method), otherwise returns the value or the default. -/
def pyGet (d : PyData) (key : String) (default : PyData) : Except PyErr PyData :=
  match d with
  | .dict fs =>
    match lookupStr fs key with
    | some v => .ok v
    | Option.none => .ok default
  | _ => .error .attributeError

/-- Model of len(x) for the payload shapes the client can receive. -/
def pyLen : PyData → Except PyErr Nat
  | .str s => .ok s.data.length
  | .list xs => .ok xs.length
  | .dict fs => .ok fs.length
  | _ => .error .typeError

/-- Outcome of one transport request: a decoded JSON payload, or a raised
requests.RequestException. -/
inductive TransportResult where
  | failure
  | ok (data : PyData)

/-- One HTTP request as issued by _rpc_call: the RPC method name and the
optional JSON parameters (params truthiness picks GET vs POST in the
source; the trace records the payload either way). -/
structure Req where
  method : String
  params : Option PyData

/-- Client-side request bookkeeping: number of requests issued so far
(indexing the device oracle) and the trace of issued requests. -/
structure RpcState where
  k : Nat
  trace : List Req

/-- The device oracle: the transport outcome of the i-th issued request. -/
def Device := Nat → TransportResult

/-- The isinstance(data, dict) and "error" in data test of _rpc_call. -/
def topError : PyData → Bool
  | .dict fs => fs.any (fun p => p.1 == "error")
  | _ => false

/-- The exception raised by _rpc_call on a payload with a top-level
"error" field: building the message via data["error"].get("message", ...)
raises AttributeError when the error value is not itself a dict, and the
raise ValueError fires otherwise. -/
def rpcErrorOf (data : PyData) : PyErr :=
  match data with
  | .dict fs =>
    match lookupStr fs "error" with
    | some (.dict _) => .valueError
    | _ => .attributeError
  | _ => .valueError

/-- ShellyClient._rpc_call: issue one request; re-raise a transport
failure; when the decoded payload is a dict with a top-level "error"
field, raise (see rpcErrorOf); otherwise return the payload unchanged.
No retry: exactly one request is issued per call. -/
def rpc_call (dev : Device) (method : String) (params : Option PyData)
    (s : RpcState) : RpcState × Except PyErr PyData :=
  let s' : RpcState := ⟨s.k + 1, s.trace ++ [⟨method, params⟩]⟩
  match dev s.k with
  | .failure => (s', .error .requestException)
  | .ok data =>
    if topError data then (s', .error (rpcErrorOf data))
    else (s', .ok data)

/-- ShellyClient.list_schedules: Schedule.List, then result.get("jobs", []). -/
def list_schedules (dev : Device) (s : RpcState) :
    RpcState × Except PyErr PyData :=
  match rpc_call dev "Schedule.List" Option.none s with
  | (s', .error e) => (s', .error e)
  | (s', .ok result) =>
    match pyGet result "jobs" (.list []) with
    | .error e => (s', .error e)
    | .ok v => (s', .ok v)

/-- ShellyClient.delete_schedule: Schedule.Delete with params {"id": id}. -/
def delete_schedule (dev : Device) (idv : PyData) (s : RpcState) :
    RpcState × Except PyErr Unit :=
  match rpc_call dev "Schedule.Delete" (some (.dict [("id", idv)])) s with
  | (s', .error e) => (s', .error e)
  | (s', .ok _) => (s', .ok ())

/-- The per-item loop of ShellyClient.delete_all_schedules: for each
schedule dict, read schedule.get("id"); skip it when the id is absent or
None; otherwise delete it, counting a success and swallowing
requests.RequestException and ValueError (any other exception, such as
the AttributeError of a non-dict entry, propagates). -/
def deleteLoop (dev : Device) : List PyData → RpcState → Nat →
    RpcState × Except PyErr Nat
  | [], s, cnt => (s, .ok cnt)
  | j :: js, s, cnt =>
    match j with
    | .dict fs =>
      match lookupStr fs "id" with
      | Option.none => deleteLoop dev js s cnt
      | some .none => deleteLoop dev js s cnt
      | some idv =>
        match delete_schedule dev idv s with
        | (s', .ok _) => deleteLoop dev js s' (cnt + 1)
        | (s', .error .requestException) => deleteLoop dev js s' cnt
        | (s', .error .valueError) => deleteLoop dev js s' cnt
        | (s', .error e) => (s', .error e)
    | _ => (s, .error .attributeError)

/-- ShellyClient.delete_all_schedules: list the schedules itself (it takes
no argument beyond self), then run the per-item delete loop, returning the
tally of successful deletions. A payload whose "jobs" value is not a list
makes the for loop raise TypeError. -/
def delete_all_schedules (dev : Device) (s : RpcState) :
    RpcState × Except PyErr Nat :=
  match list_schedules dev s with
  | (s', .error e) => (s', .error e)
  | (s', .ok (.list js)) => deleteLoop dev js s' 0
  | (s', .ok _) => (s', .error .typeError)

/-- ShellyClient.create_schedule: build the Schedule.Create params dict,
issue the call, and return result.get("id", -1). -/
def create_schedule (dev : Device) (timespec : String) (switch_id : Int)
    (turn_on : Bool) (enabled : Bool) (condition_if_on : Bool)
    (s : RpcState) : RpcState × Except PyErr PyData :=
  let base : List (String × PyData) :=
    [("enable", .bool enabled),
     ("timespec", .str timespec),
     ("calls", .list [.dict [("method", .str "Switch.Set"),
                             ("params", .dict [("id", .int switch_id),
                                               ("on", .bool turn_on)])]])]
  let params : List (String × PyData) :=
    if condition_if_on then
      base ++ [("condition", .dict [("cmp", .dict
        [("a", .str ("switch:" ++ toString switch_id ++ ".output")),
         ("b", .bool true), ("op", .str "==")])])]
    else base
  match rpc_call dev "Schedule.Create" (some (.dict params)) s with
  | (s', .error e) => (s', .error e)
  | (s', .ok result) =>
    match pyGet result "id" (.int (-1)) with
    | .error e => (s', .error e)
    | .ok v => (s', .ok v)

/-! ## Configuration loading and validation (src/config.py)

ShellyConfig is a pydantic BaseModel whose fields are all declared with
Field(...), i.e. required: a missing field raises ValidationError. The
field validators check log_level membership, latitude in [-90, 90] and
longitude in [-180, 180]; nothing validates the timezone string. The raw
YAML data is modelled as a record of optional fields; numeric values as
exact rationals (the float comparisons of the validators agree with the
rational order on every value a YAML config can carry). -/

/-- A schedule entry as it comes out of yaml.safe_load, before pydantic
validation; offset defaults to 0 when absent. -/
structure RawSchedule where
  time : Option String
  action : Option String
  offset : Option Int

/-- The yaml.safe_load output for the top-level config mapping. -/
structure RawConfig where
  shelly_ip : Option String
  switch_id : Option Int
  latitude : Option Rat
  longitude : Option Rat
  timezone : Option String
  schedules : Option (List RawSchedule)
  log_level : Option String
  log_file : Option String

/-- Python str.upper for the ASCII strings a log level can be. -/
def pyUpper (s : String) : String := ⟨s.data.map Char.toUpper⟩

/-- Pydantic validation of one Schedule entry: time and action required,
action must be the literal "on" or "off", offset defaults to 0. -/
def validateSchedule (r : RawSchedule) : Except PyErr Schedule :=
  match r.time, r.action with
  | some t, some a =>
    if a = "on" then .ok ⟨t, .on, r.offset.getD 0⟩
    else if a = "off" then .ok ⟨t, .off, r.offset.getD 0⟩
    else .error .validationError
  | _, _ => .error .validationError

/-- Pydantic validation of all Schedule entries. -/
def validateSchedules : List RawSchedule → Except PyErr (List Schedule)
  | [] => .ok []
  | r :: rs =>
    match validateSchedule r, validateSchedules rs with
    | .ok sch, .ok rest => .ok (sch :: rest)
    | _, _ => .error .validationError

/-- Pydantic validation of ShellyConfig: every field is required
(Field(...)); validate_log_level, validate_latitude and validate_longitude
are the three field validators of config.py; the timezone string is not
validated. -/
def validateConfig (r : RawConfig) : Except PyErr ShellyConfig :=
  match r.shelly_ip, r.switch_id, r.latitude, r.longitude, r.timezone,
        r.schedules, r.log_level, r.log_file with
  | some ip, some sw, some lat, some lon, some tz, some rawSchs,
    some lvl, some lf =>
    if ¬ ((-90 : Rat) ≤ lat ∧ lat ≤ 90) then .error .validationError
    else if ¬ ((-180 : Rat) ≤ lon ∧ lon ≤ 180) then .error .validationError
    else if ¬ (pyUpper lvl = "DEBUG" ∨ pyUpper lvl = "INFO" ∨
               pyUpper lvl = "WARNING" ∨ pyUpper lvl = "ERROR") then
      .error .validationError
    else
      match validateSchedules rawSchs with
      | .error e => .error e
      | .ok schs => .ok ⟨ip, sw, lat, lon, tz, schs, pyUpper lvl, lf⟩
  | _, _, _, _, _, _, _, _ => .error .validationError

/-! ## ReconciliationWorkflow (src/main.py)

main() wraps everything in try/except Exception; any exception logged
there ends in sys.exit(1), and the sys.exit(1) of verify_schedules raises
SystemExit, which except Exception does not catch — either way the
process exit code is 1. The zoneinfo database is an oracle telling which
zone names resolve (ZoneInfo raises ZoneInfoNotFoundError otherwise); the
sun positions computed by astral and datetime.now(tz) enter as the
parameters st and now. -/

/-- Process-level outcome of a run of main(). -/
inductive MainOutcome where
  | success
  | exit1
deriving DecidableEq

/-- main.py module constant SWITCH_ID = 0. -/
def SWITCH_ID : Int := 0

/-- The loop of main.create_schedules: resolve each configured schedule
(calculate_schedule_time, time_to_cron) and create it on the device; any
exception aborts the loop. -/
def create_schedules_loop (dev : Device) (st : SunTimes) (now : DateTime) :
    List Schedule → RpcState → RpcState × Except PyErr Unit
  | [], s => (s, .ok ())
  | sched :: rest, s =>
    match calculate_schedule_time sched st now with
    | .error e => (s, .error e)
    | .ok t =>
      match create_schedule dev (time_to_cron t) SWITCH_ID
          (sched.action == .on) true false s with
      | (s', .error e) => (s', .error e)
      | (s', .ok _) => create_schedules_loop dev st now rest s'

/-- main.main() with a validated config. Steps, in source order:
show_existing_schedules lists the device schedules (its display loop only
reads dict fields and performs no request; len() on a non-sequence raises
TypeError). When existing_schedules is truthy, line 109 runs
deleted_count = client.delete_all_schedules(existing_schedules) — but
ShellyClient.delete_all_schedules (shelly_client.py line 80) is declared
with no parameter besides self, so the call itself raises
TypeError: delete_all_schedules() takes 1 positional argument but 2 were
given, before any Schedule.Delete request can be issued; the except
Exception handler logs it and exits 1. Otherwise calculate_sun_times runs
ZoneInfo(config.timezone) (ZoneInfoNotFoundError for an unknown zone,
caught, exit 1), create_schedules creates each configured schedule, and
verify_schedules lists again and exits 1 unless the count equals the
number of configured schedules. -/
def main_run (cfg : ShellyConfig) (tzdb : String → Bool) (st : SunTimes)
    (now : DateTime) (dev : Device) : MainOutcome × List Req :=
  let s0 : RpcState := ⟨0, []⟩
  match list_schedules dev s0 with
  | (s1, .error _) => (.exit1, s1.trace)
  | (s1, .ok schedules) =>
    match pyLen schedules with
    | .error _ => (.exit1, s1.trace)
    | .ok n =>
      if n ≠ 0 then (.exit1, s1.trace)
      else if ¬ tzdb cfg.timezone then (.exit1, s1.trace)
      else
        match create_schedules_loop dev st now cfg.schedules s1 with
        | (s2, .error _) => (.exit1, s2.trace)
        | (s2, .ok _) =>
          match list_schedules dev s2 with
          | (s3, .error _) => (.exit1, s3.trace)
          | (s3, .ok after) =>
            match pyLen after with
            | .error _ => (.exit1, s3.trace)
            | .ok m =>
              if m ≠ cfg.schedules.length then (.exit1, s3.trace)
              else (.success, s3.trace)

/-- The __main__ block followed by main(): load and validate the
configuration first — a failure there exits 1 before a client is even
constructed, so no device request is ever issued — then run main(). -/
def run_main (raw : RawConfig) (tzdb : String → Bool) (st : SunTimes)
    (now : DateTime) (dev : Device) : MainOutcome × List Req :=
  match validateConfig raw with
  | .error _ => (.exit1, [])
  | .ok cfg => main_run cfg tzdb st now dev

/-! ## Spec-side definitions

These two definitions follow the words of the specification, not the
source; they exist to compare the source behaviour against the spec for
the refinement-style claims. -/

/-- Follows the spec: a valid HH:MM clock literal is a string that splits
on the colon into exactly two nonempty all-digit fields whose values are
an hour 0..23 and a minute 0..59 (returned when valid). -/
def parseHHMM_spec (s : String) : Option (Nat × Nat) :=
  match pySplit ':' s.data with
  | [hh, mm] =>
    if hh ≠ [] ∧ mm ≠ [] ∧ hh.all Char.isDigit ∧ mm.all Char.isDigit then
      if digitsVal hh ≤ 23 ∧ digitsVal mm ≤ 59 then
        some (digitsVal hh, digitsVal mm)
      else Option.none
    else Option.none
  | _ => Option.none

/-- Follows the spec: parse back the minute and hour fields (second and
third whitespace-separated fields) of a produced recurrence expression. -/
def parseCronMinuteHour (s : String) : Option (Int × Int) :=
  match pySplit ' ' s.data with
  | [_, mf, hf, _, _, _] =>
    match pyIntChars mf, pyIntChars hf with
    | some m, some h => some (m, h)
    | _, _ => Option.none
  | _ => Option.none

/-- The acceptance predicate actually implemented by the clock-literal
branch of calculate_schedule_time: the colon-split maps under Python
int() to exactly two values with hour 0..23 and minute 0..59. -/
def codeValidTime (s : String) : Bool :=
  match (pySplit ':' s.data).map pyIntChars with
  | [some h, some m] => decide (0 ≤ h ∧ h ≤ 23 ∧ 0 ≤ m ∧ m ≤ 59)
  | _ => false

/-- The keyword test of calculate_schedule_time:
schedule.time in ["sunrise", "sunset"]. -/
def isSunKeyword (s : String) : Bool :=
  s == "sunrise" || s == "sunset"

/-- Whether an embedded Python computation completed without raising. -/
def exceptIsOk {α : Type} : Except PyErr α → Bool
  | .ok _ => true
  | .error _ => false

/-! ## Witness fixtures: small concrete values used by the witnesses -/

/-- Sun times fixture: sunrise 06:12:30.000123, sunset 19:40:00. -/
def stW : SunTimes := ⟨⟨20000, 6, 12, 30, 123⟩, ⟨20000, 19, 40, 0, 0⟩⟩

/-- A concrete now: 12:00:00 on the same day. -/
def nowW : DateTime := ⟨20000, 12, 0, 0, 0⟩

/-- The two-schedule configuration of the spec scenario:
sunset with offset 0 turning on, and 22:30 turning off. -/
def cfgW2 : ShellyConfig :=
  { shelly_ip := "192.168.1.50"
    switch_id := 0
    latitude := 59
    longitude := 24
    timezone := "Europe/Tallinn"
    schedules := [⟨"sunset", .on, 0⟩, ⟨"22:30", .off, 0⟩]
    log_level := "INFO"
    log_file := "shelly.log" }

/-- Three stale remote schedules with ids 1, 2 and 3. -/
def jobs3 : List PyData :=
  [.dict [("id", .int 1), ("timespec", .str "0 0 8 * * *")],
   .dict [("id", .int 2)],
   .dict [("id", .int 3)]]

/-- A zoneinfo database oracle resolving every zone name. -/
def tzdbAll : String → Bool := fun _ => true

/-- A device holding three stale schedules whose deletions (and any later
request) would all succeed. -/
def devStale3 : Device := fun k =>
  if k = 0 then .ok (.dict [("jobs", .list jobs3)])
  else .ok (.dict [("id", .int 9)])

/-- A device that starts empty, accepts the two creations, and then
reports three schedules on the verification listing. -/
def devW2 : Device := fun k =>
  if k = 0 then .ok (.dict [("jobs", .list [])])
  else if k = 3 then .ok (.dict [("jobs", .list jobs3)])
  else .ok (.dict [("id", .int (k : Int))])

/-- A device that always reports an empty schedule list. -/
def devEmptyW : Device := fun _ => .ok (.dict [("jobs", .list [])])

/-- A device with three stale schedules where the second deletion fails
at the transport level and the others succeed. -/
def devDelMix : Device := fun k =>
  if k = 0 then .ok (.dict [("jobs", .list jobs3)])
  else if k = 2 then .failure
  else .ok (.dict [])

/-- A raw configuration with every field present and in range. -/
def rawOkW : RawConfig :=
  { shelly_ip := some "192.168.1.50"
    switch_id := some 0
    latitude := some 59
    longitude := some 24
    timezone := some "Europe/Tallinn"
    schedules := some [⟨some "sunset", some "on", some 0⟩,
                       ⟨some "22:30", some "off", Option.none⟩]
    log_level := some "INFO"
    log_file := some "shelly.log" }

/-- rawOkW with the out-of-range latitude 91 of the spec example. -/
def rawLat91 : RawConfig := { rawOkW with latitude := some 91 }

/-- rawOkW with a timezone name that is not in the IANA database. -/
def rawTZbad : RawConfig := { rawOkW with timezone := some "Not/AZone" }

/-! ## General lemmas -/

/-- Shifting a datetime by o minutes moves the underlying instant by
exactly o * 60 seconds. -/
theorem addMinutes_toSeconds (dt : DateTime) (o : Int) :
    (addMinutes dt o).toSeconds = dt.toSeconds + o * 60 := by
  simp only [addMinutes, DateTime.toSeconds]
  omega

/-- A whole-minute shift leaves the microsecond field unchanged. -/
theorem addMinutes_microsecond (dt : DateTime) (o : Int) :
    (addMinutes dt o).microsecond = dt.microsecond := rfl

/-- The hour field produced by addMinutes is a valid wall-clock hour. -/
theorem addMinutes_hour_lt (dt : DateTime) (o : Int) :
    (addMinutes dt o).hour < 24 := by
  simp only [addMinutes]
  omega

/-- The minute field produced by addMinutes is a valid wall-clock minute. -/
theorem addMinutes_minute_lt (dt : DateTime) (o : Int) :
    (addMinutes dt o).minute < 60 := by
  simp only [addMinutes]
  omega

/-- dropWhile is the identity when no element satisfies the predicate. -/
theorem dropWhile_of_none (p : Char → Bool) :
    ∀ cs : List Char, (∀ c ∈ cs, p c = false) → cs.dropWhile p = cs
  | [], _ => rfl
  | c :: rest, h => by
    have hc : p c = false := h c (by simp)
    simp [List.dropWhile, hc]

/-- trimWs is the identity on a list with no whitespace characters. -/
theorem trimWs_of_none (cs : List Char) (h : ∀ c ∈ cs, isPyWs c = false) :
    trimWs cs = cs := by
  unfold trimWs
  rw [dropWhile_of_none isPyWs cs h,
      dropWhile_of_none isPyWs cs.reverse
        (fun c hc => h c (List.mem_reverse.mp hc)),
      List.reverse_reverse]

/-- A decimal digit is not a whitespace character. -/
theorem isPyWs_of_isDigit (c : Char) (h : c.isDigit = true) :
    isPyWs c = false := by
  have h1 : c ≠ ' ' := fun he => by subst he; exact absurd h (by decide)
  have h2 : c ≠ '\t' := fun he => by subst he; exact absurd h (by decide)
  have h3 : c ≠ '\n' := fun he => by subst he; exact absurd h (by decide)
  have h4 : c ≠ '\r' := fun he => by subst he; exact absurd h (by decide)
  have h5 : c ≠ '\x0b' := fun he => by subst he; exact absurd h (by decide)
  have h6 : c ≠ '\x0c' := fun he => by subst he; exact absurd h (by decide)
  simp [isPyWs, h1, h2, h3, h4, h5, h6]

/-- A nonempty all-digit string passes the Python int digit grammar. -/
theorem pyDigitsOk_of_all :
    ∀ cs : List Char, cs ≠ [] → (∀ c ∈ cs, c.isDigit = true) →
      pyDigitsOk cs = true
  | [], h, _ => absurd rfl h
  | [c], _, hd => by
    have := hd c (by simp)
    simp [pyDigitsOk, this]
  | c :: c2 :: rest, _, hd => by
    have hc : c.isDigit = true := hd c (by simp)
    have h2 : c2.isDigit = true := hd c2 (by simp)
    have hne : c2 ≠ '_' := fun he => by subst he; exact absurd h2 (by decide)
    have ih := pyDigitsOk_of_all (c2 :: rest) (by simp)
      (fun x hx => hd x (List.mem_cons_of_mem c hx))
    simp [pyDigitsOk, hne, hc, ih]

/-- Python int() on a nonempty all-digit string returns its decimal
value. -/
theorem pyIntChars_digits (cs : List Char) (hne : cs ≠ [])
    (hd : ∀ c ∈ cs, c.isDigit = true) :
    pyIntChars cs = some (digitsVal cs : Int) := by
  have ht : trimWs cs = cs :=
    trimWs_of_none cs (fun c hc => isPyWs_of_isDigit c (hd c hc))
  unfold pyIntChars
  rw [ht]
  rcases cs with _ | ⟨c, rest⟩
  · exact absurd rfl hne
  · have hc : c.isDigit = true := hd c (by simp)
    have hcp : c ≠ '+' := fun he => by subst he; exact absurd hc (by decide)
    have hcm : c ≠ '-' := fun he => by subst he; exact absurd hc (by decide)
    have hok : pyDigitsOk (c :: rest) = true :=
      pyDigitsOk_of_all (c :: rest) (by simp) hd
    simp [hcp, hcm, hok]

/-- A spec-valid HH:MM literal also parses on the code path: the
colon-split maps under Python int() to the same two in-range values. -/
theorem parseHHMM_spec_to_code (s : String) (h m : Nat)
    (hp : parseHHMM_spec s = some (h, m)) :
    (pySplit ':' s.data).map pyIntChars = [some (h : Int), some (m : Int)] ∧
    h ≤ 23 ∧ m ≤ 59 := by
  unfold parseHHMM_spec at hp
  split at hp
  case _ hh mm heq =>
    split at hp
    case isTrue hcond =>
      split at hp
      case isTrue hrange =>
        obtain ⟨hhne, hmne, hhdig, hmdig⟩ := hcond
        have hinj := Option.some.inj hp
        have hh_eq : digitsVal hh = h := congrArg Prod.fst hinj
        have hm_eq : digitsVal mm = m := congrArg Prod.snd hinj
        refine ⟨?_, ?_, ?_⟩
        · rw [heq]
          simp only [List.map]
          rw [pyIntChars_digits hh hhne (fun c hc => by
                have := List.all_eq_true.mp hhdig c hc
                simpa using this),
              pyIntChars_digits mm hmne (fun c hc => by
                have := List.all_eq_true.mp hmdig c hc
                simpa using this),
              hh_eq, hm_eq]
        · exact hh_eq ▸ hrange.1
        · exact hm_eq ▸ hrange.2
      case isFalse => exact absurd hp (by simp)
    case isFalse => exact absurd hp (by simp)
  case _ => exact absurd hp (by simp)

/-- Evaluation of calculate_schedule_time on a spec-valid clock literal:
today at that hour and minute, seconds and microseconds zeroed. -/
theorem calc_time_clock (spec : Schedule) (st : SunTimes) (now : DateTime)
    (h m : Nat) (hp : parseHHMM_spec spec.time = some (h, m)) :
    calculate_schedule_time spec st now = .ok ⟨now.day, h, m, 0, 0⟩ := by
  obtain ⟨hmap, hh23, hm59⟩ := parseHHMM_spec_to_code spec.time h m hp
  have hsr : spec.time ≠ "sunrise" := by
    intro he
    rw [he] at hp
    have : parseHHMM_spec "sunrise" = Option.none := by decide
    rw [this] at hp
    exact Option.noConfusion hp
  have hss : spec.time ≠ "sunset" := by
    intro he
    rw [he] at hp
    have : parseHHMM_spec "sunset" = Option.none := by decide
    rw [this] at hp
    exact Option.noConfusion hp
  unfold calculate_schedule_time
  rw [if_neg hsr, if_neg hss, hmap]
  show dtReplaceHM now (h : Int) (m : Int) = _
  unfold dtReplaceHM
  rw [if_pos (by refine ⟨?_, ?_, ?_, ?_⟩ <;> omega)]
  simp

/-! ## C4 -/

/-- C4: for every ScheduleSpec whose time is a valid HH:MM clock literal,
the trigger resolves to today at that hour and minute with seconds (and
microseconds) equal to 0, and the offset value has no effect on the
result. -/
theorem C4_clock_literal_ignores_offset (spec : Schedule) (st : SunTimes)
    (now : DateTime) (h m : Nat)
    (hp : parseHHMM_spec spec.time = some (h, m)) :
    calculate_schedule_time spec st now = .ok ⟨now.day, h, m, 0, 0⟩ ∧
    (∀ o : Int, calculate_schedule_time ⟨spec.time, spec.action, o⟩ st now =
      calculate_schedule_time spec st now) := by
  refine ⟨calc_time_clock spec st now h m hp, fun o => ?_⟩
  rw [calc_time_clock ⟨spec.time, spec.action, o⟩ st now h m hp,
      calc_time_clock spec st now h m hp]

/-- Witness for C4 at time 22:30, comparing offsets 45 and -999. -/
theorem C4_clock_literal_ignores_offset_witness :
    calculate_schedule_time ⟨"22:30", .off, 45⟩ stW nowW =
      .ok ⟨nowW.day, 22, 30, 0, 0⟩ ∧
    calculate_schedule_time ⟨"22:30", .off, -999⟩ stW nowW =
      calculate_schedule_time ⟨"22:30", .off, 45⟩ stW nowW :=
  ⟨(C4_clock_literal_ignores_offset ⟨"22:30", .off, 45⟩ stW nowW 22 30
      (by decide)).1,
   (C4_clock_literal_ignores_offset ⟨"22:30", .off, 45⟩ stW nowW 22 30
      (by decide)).2 (-999)⟩

/-! ## C5 -/

/-- C5 counterexample: the claim says resolution fails for every time
string that is neither a keyword nor a valid HH:MM literal; but the
string +07:05 is neither (the hour field carries a sign), and resolution
succeeds on it, returning today at 07:05 (Python int() accepts a sign). -/
theorem C5_counterexample_signed_literal :
    calculate_schedule_time ⟨"+07:05", .on, 0⟩ stW nowW =
      .ok ⟨nowW.day, 7, 5, 0, 0⟩ ∧
    parseHHMM_spec "+07:05" = Option.none ∧
    isSunKeyword "+07:05" = false := by
  exact ⟨by rfl, by decide, by decide⟩

/-- C5 amended: resolution succeeds exactly when the time is a keyword or
its colon-split maps under Python int() to an hour 0..23 and a minute
0..59 (a set slightly larger than the valid HH:MM literals, since int()
also accepts signs and surrounding whitespace); every spec-valid HH:MM
literal is in that set, so resolution never fails on the valid set, and
strings such as 25:61 that parse out of range still fail. -/
theorem C5_amended_failure_condition (spec : Schedule) (st : SunTimes)
    (now : DateTime) :
    exceptIsOk (calculate_schedule_time spec st now) =
      (isSunKeyword spec.time || codeValidTime spec.time) ∧
    (∀ h m, parseHHMM_spec spec.time = some (h, m) →
      codeValidTime spec.time = true) := by
  constructor
  · by_cases h1 : spec.time = "sunrise"
    · simp [calculate_schedule_time, isSunKeyword, h1, exceptIsOk]
    · by_cases h2 : spec.time = "sunset"
      · simp [calculate_schedule_time, isSunKeyword, h2, exceptIsOk]
      · have hks : (spec.time == "sunrise") = false := by
          simp only [beq_eq_false_iff_ne, ne_eq]
          exact h1
        have hks2 : (spec.time == "sunset") = false := by
          simp only [beq_eq_false_iff_ne, ne_eq]
          exact h2
        simp only [calculate_schedule_time, if_neg h1, if_neg h2,
          isSunKeyword, hks, hks2, Bool.false_or, codeValidTime]
        rcases hl : (pySplit ':' spec.time.data).map pyIntChars with
          _ | ⟨a, _ | ⟨b, _ | ⟨c, tl⟩⟩⟩
        · rfl
        · rcases a with _ | av <;> rfl
        · rcases a with _ | h' <;> rcases b with _ | m'
          · rfl
          · rfl
          · rfl
          · show exceptIsOk (dtReplaceHM now h' m') =
              decide (0 ≤ h' ∧ h' ≤ 23 ∧ 0 ≤ m' ∧ m' ≤ 59)
            unfold dtReplaceHM
            by_cases hc : (0 ≤ h' ∧ h' ≤ 23 ∧ 0 ≤ m' ∧ m' ≤ 59)
            · rw [if_pos hc]
              simp [exceptIsOk, hc]
            · rw [if_neg hc]
              simp [exceptIsOk, hc]
        · rcases a with _ | h' <;> rcases b with _ | m' <;> rfl
  · intro h m hp
    obtain ⟨hmap, hh23, hm59⟩ := parseHHMM_spec_to_code spec.time h m hp
    unfold codeValidTime
    rw [hmap]
    refine decide_eq_true ⟨?_, ?_, ?_, ?_⟩ <;> omega

/-- Witness for C5 amended, at the spec fixture 25:61 of the claim: the
amended equivalence evaluated there shows resolution failing. -/
theorem C5_amended_failure_condition_witness :
    exceptIsOk (calculate_schedule_time ⟨"25:61", .on, 0⟩ stW nowW) =
      (isSunKeyword "25:61" || codeValidTime "25:61") ∧
    (isSunKeyword "25:61" || codeValidTime "25:61") = false :=
  ⟨(C5_amended_failure_condition ⟨"25:61", .on, 0⟩ stW nowW).1, by decide⟩

/-! ## C6 -/

set_option maxHeartbeats 1000000 in
/-- Exhaustive check over all wall-clock minute and hour values: splitting
the produced cron string on spaces yields exactly the six expected fields,
and Python int() applied to the minute and hour fields recovers the
values. -/
theorem cron_fields_bounded :
    ∀ m : Nat, m < 60 → ∀ h : Nat, h < 24 →
      pySplit ' ' ('0' :: ' ' :: (natToDigits m ++ ' ' ::
        (natToDigits h ++ (' ' :: '*' :: ' ' :: '*' :: ' ' :: '*' :: [])))) =
        [['0'], natToDigits m, natToDigits h, ['*'], ['*'], ['*']] ∧
      pyIntChars (natToDigits m) = some (m : Int) ∧
      pyIntChars (natToDigits h) = some (h : Int) := by decide

/-- C6: the produced recurrence expression is a six-field
whitespace-separated string — seconds field 0, then the instant's minute
and hour in decimal, then three wildcards — and parsing the minute and
hour fields back yields exactly the instant's wall-clock minute and
hour. -/
theorem C6_recurrence_expression_roundtrip (dt : DateTime)
    (hh : dt.hour < 24) (hm : dt.minute < 60) :
    pySplit ' ' (time_to_cron dt).data =
      [['0'], natToDigits dt.minute, natToDigits dt.hour,
       ['*'], ['*'], ['*']] ∧
    parseCronMinuteHour (time_to_cron dt) =
      some ((dt.minute : Int), (dt.hour : Int)) := by
  obtain ⟨hsplit, hmint, hhint⟩ := cron_fields_bounded dt.minute hm dt.hour hh
  have hdata : (time_to_cron dt).data =
      '0' :: ' ' :: (natToDigits dt.minute ++ ' ' ::
        (natToDigits dt.hour ++
          (' ' :: '*' :: ' ' :: '*' :: ' ' :: '*' :: []))) := rfl
  constructor
  · rw [hdata]
    exact hsplit
  · have hred : parseCronMinuteHour (time_to_cron dt) =
        match pyIntChars (natToDigits dt.minute),
              pyIntChars (natToDigits dt.hour) with
        | some m, some h => some (m, h)
        | _, _ => Option.none := by
      unfold parseCronMinuteHour
      rw [hdata, hsplit]
    rw [hred, hmint, hhint]

/-- Witness for C6 at the spec scenario instant 06:12 (sunrise), whose
recurrence expression is the string 0 12 6 * * *. -/
theorem C6_recurrence_expression_roundtrip_witness :
    (pySplit ' ' (time_to_cron ⟨20000, 6, 12, 30, 123⟩).data =
      [['0'], natToDigits 12, natToDigits 6, ['*'], ['*'], ['*']] ∧
     parseCronMinuteHour (time_to_cron ⟨20000, 6, 12, 30, 123⟩) =
      some ((12 : Int), (6 : Int))) ∧
    time_to_cron ⟨20000, 6, 12, 30, 123⟩ = "0 12 6 * * *" :=
  ⟨C6_recurrence_expression_roundtrip ⟨20000, 6, 12, 30, 123⟩
      (by decide) (by decide),
   by decide⟩

/-- list_schedules always issues exactly one Schedule.List request,
whatever the response. -/
theorem list_schedules_state (dev : Device) (s : RpcState) :
    (list_schedules dev s).1 =
      ⟨s.k + 1, s.trace ++ [⟨"Schedule.List", Option.none⟩]⟩ := by
  unfold list_schedules rpc_call
  cases h : dev s.k with
  | failure => rfl
  | ok data =>
    by_cases ht : topError data
    · simp [ht]
    · simp only [ht, if_false, Bool.false_eq_true]
      rcases pyGet data "jobs" (.list []) with e | v <;> rfl

/-! ## C3 -/

/-- C3: for every ScheduleSpec with time equal to sunrise or sunset and
offset o (possibly negative), the resolved trigger instant equals
sun_times[spec.time] plus exactly o minutes (same underlying instant
shifted by o * 60 seconds, microsecond untouched). -/
theorem C3_sun_relative_trigger (spec : Schedule) (st : SunTimes)
    (now : DateTime) (h : spec.time = "sunrise" ∨ spec.time = "sunset") :
    ∃ r, calculate_schedule_time spec st now = .ok r ∧
      r = addMinutes (if spec.time = "sunrise" then st.sunrise else st.sunset)
            spec.offset ∧
      r.toSeconds =
        (if spec.time = "sunrise" then st.sunrise else st.sunset).toSeconds
          + spec.offset * 60 ∧
      r.microsecond =
        (if spec.time = "sunrise" then st.sunrise else st.sunset).microsecond := by
  rcases h with h | h
  · exact ⟨addMinutes st.sunrise spec.offset,
      by simp [calculate_schedule_time, h],
      by simp [h],
      by simp [h, addMinutes_toSeconds],
      by simp [h, addMinutes_microsecond]⟩
  · have hne : spec.time ≠ "sunrise" := by simp [h]
    exact ⟨addMinutes st.sunset spec.offset,
      by simp [calculate_schedule_time, h],
      by simp [h],
      by simp [h, addMinutes_toSeconds],
      by simp [h, addMinutes_microsecond]⟩

/-- Witness for C3 at the concrete spec sunrise with offset -30. -/
theorem C3_sun_relative_trigger_witness :
    ∃ r, calculate_schedule_time ⟨"sunrise", .off, -30⟩ stW nowW = .ok r ∧
      r = addMinutes
            (if ("sunrise" : String) = "sunrise" then stW.sunrise else stW.sunset)
            (-30) ∧
      r.toSeconds =
        (if ("sunrise" : String) = "sunrise" then stW.sunrise
         else stW.sunset).toSeconds + (-30) * 60 ∧
      r.microsecond =
        (if ("sunrise" : String) = "sunrise" then stW.sunrise
         else stW.sunset).microsecond :=
  C3_sun_relative_trigger ⟨"sunrise", .off, -30⟩ stW nowW (Or.inl rfl)

/-! ## C8 -/

/-- C8: a gateway RPC call fails exactly when the transport request fails
or the transport-successful payload carries a top-level error field;
otherwise the payload is returned unchanged; each call issues exactly one
request (appended to the trace) and its outcome depends only on the one
response to that request — no retry. -/
theorem C8_rpc_call_contract (dev : Device) (method : String)
    (params : Option PyData) (s : RpcState) :
    (rpc_call dev method params s).1.k = s.k + 1 ∧
    (rpc_call dev method params s).1.trace = s.trace ++ [⟨method, params⟩] ∧
    ((∃ e, (rpc_call dev method params s).2 = .error e) ↔
      (dev s.k = .failure ∨ ∃ d, dev s.k = .ok d ∧ topError d = true)) ∧
    (∀ d, dev s.k = .ok d → topError d = false →
      (rpc_call dev method params s).2 = .ok d) ∧
    (∀ dev2 : Device, dev2 s.k = dev s.k →
      rpc_call dev2 method params s = rpc_call dev method params s) := by
  refine ⟨?_, ?_, ?_, ?_, ?_⟩
  · cases h : dev s.k <;> simp [rpc_call, h]
    rename_i data
    by_cases he : topError data <;> simp [he]
  · cases h : dev s.k <;> simp [rpc_call, h]
    rename_i data
    by_cases he : topError data <;> simp [he]
  · cases h : dev s.k with
    | failure => simp [rpc_call, h]
    | ok data =>
      by_cases he : topError data <;> simp [rpc_call, h, he]
  · intro d hd he
    simp [rpc_call, hd, he]
  · intro dev2 h2
    simp [rpc_call, h2]

/-- Witness for C8 at a concrete successful call. -/
theorem C8_rpc_call_contract_witness :
    ((rpc_call (fun _ => .ok (.dict [("jobs", .list [])])) "Schedule.List"
        Option.none ⟨0, []⟩).2 = .ok (.dict [("jobs", .list [])])) ∧
    (rpc_call (fun _ => .ok (.dict [("jobs", .list [])])) "Schedule.List"
        Option.none ⟨0, []⟩).1.k = 0 + 1 := by
  have h := C8_rpc_call_contract (fun _ => .ok (.dict [("jobs", .list [])]))
    "Schedule.List" Option.none ⟨0, []⟩
  exact ⟨h.2.2.2.1 (.dict [("jobs", .list [])]) rfl rfl, h.1⟩

/-! ## C9 -/

/-- C9 (implicit): when the Schedule.Create response succeeds at the
transport level, has no error field, but also has no id field,
create_schedule does not fail: it returns the sentinel id -1. -/
theorem C9_create_missing_id (dev : Device) (s : RpcState)
    (ts : String) (sw : Int) (ton en cond : Bool)
    (fs : List (String × PyData))
    (h : dev s.k = .ok (.dict fs))
    (he : fs.any (fun p => p.1 == "error") = false)
    (hid : lookupStr fs "id" = Option.none) :
    (create_schedule dev ts sw ton en cond s).2 = .ok (.int (-1)) := by
  simp only [create_schedule, rpc_call, h, topError, he]
  simp [pyGet, hid]

/-- Witness for C9: a create response carrying only a was_restarted flag. -/
theorem C9_create_missing_id_witness :
    (create_schedule (fun _ => .ok (.dict [("was_restarted", .bool false)]))
      "0 30 22 * * *" 0 true true false ⟨0, []⟩).2 = .ok (.int (-1)) :=
  C9_create_missing_id (fun _ => .ok (.dict [("was_restarted", .bool false)]))
    ⟨0, []⟩ "0 30 22 * * *" 0 true true false
    [("was_restarted", .bool false)] rfl rfl rfl

/-! ## C10 -/

/-- C10 (implicit): when the Schedule.List response carries no jobs field,
list_schedules returns the empty list rather than failing — the same
result as a device reporting zero schedules ("jobs": []), so the two are
indistinguishable downstream (including in the VERIFY count). -/
theorem C10_list_missing_jobs (dev : Device) (s : RpcState)
    (fs : List (String × PyData))
    (h : dev s.k = .ok (.dict fs))
    (he : fs.any (fun p => p.1 == "error") = false)
    (hjobs : lookupStr fs "jobs" = Option.none) :
    (list_schedules dev s).2 = .ok (.list []) ∧
    (∀ (dev2 : Device) (s2 : RpcState),
      dev2 s2.k = .ok (.dict [("jobs", .list [])]) →
      (list_schedules dev2 s2).2 = (list_schedules dev s).2) := by
  constructor
  · simp only [list_schedules, rpc_call, h, topError, he]
    simp [pyGet, hjobs]
  · intro dev2 s2 h2
    simp only [list_schedules, rpc_call, h, h2, topError, he]
    simp [pyGet, hjobs, lookupStr]

/-- Witness for C10: a response dict with only a rev field. -/
theorem C10_list_missing_jobs_witness :
    (list_schedules (fun _ => .ok (.dict [("rev", .int 7)])) ⟨0, []⟩).2 =
      .ok (.list []) ∧
    (∀ (dev2 : Device) (s2 : RpcState),
      dev2 s2.k = .ok (.dict [("jobs", .list [])]) →
      (list_schedules dev2 s2).2 =
        (list_schedules (fun _ => .ok (.dict [("rev", .int 7)])) ⟨0, []⟩).2) :=
  C10_list_missing_jobs (fun _ => .ok (.dict [("rev", .int 7)])) ⟨0, []⟩
    [("rev", .int 7)] rfl rfl rfl

/-! ## C1 -/

/-- The intended per-item purge semantics, as implemented inside
ShellyClient.delete_all_schedules itself: with three stale schedules of
which one deletion fails at the transport level, the tally reports 2
deletions and no exception escapes. main.py never reaches this code, see
the C1 theorem. -/
theorem delete_all_schedules_partial_failure_tally :
    (delete_all_schedules devDelMix ⟨0, []⟩).2 = .ok 2 := rfl

/-- C1: the claim says PURGE deletes every snapshot schedule with a
per-item tally and proceeds to creation; but with a nonempty snapshot
(three stale schedules, all of whose deletions would succeed), the call
client.delete_all_schedules(existing_schedules) at main.py line 109
raises TypeError — the method takes no argument — so the run exits 1
right after the single Schedule.List request: no Schedule.Delete and no
Schedule.Create request is ever issued. -/
theorem C1_purge_crashes_on_nonempty_snapshot :
    main_run cfgW2 tzdbAll stW nowW devStale3 =
      (.exit1, [⟨"Schedule.List", Option.none⟩]) := rfl

/-! ## C2 -/

/-- C2: on a run that reaches VERIFY (empty snapshot — required, per C1 —
valid zone, all creations accepted), list_schedules is called once more
(the trace gains a final Schedule.List request) and the run succeeds
exactly when the returned count equals the number of configured
ScheduleSpecs; every mismatch ends the process with exit code 1, with no
corrective request. -/
theorem C2_verify_requires_exact_count (cfg : ShellyConfig)
    (tzdb : String → Bool) (st : SunTimes) (now : DateTime) (dev : Device)
    (fs0 : List (String × PyData)) (s2 : RpcState)
    (fs2 : List (String × PyData)) (js2 : List PyData)
    (h0 : dev 0 = .ok (.dict fs0))
    (he0 : fs0.any (fun p => p.1 == "error") = false)
    (hj0 : lookupStr fs0 "jobs" = some (.list []))
    (htz : tzdb cfg.timezone = true)
    (hc : create_schedules_loop dev st now cfg.schedules
            ⟨1, [⟨"Schedule.List", Option.none⟩]⟩ = (s2, .ok ()))
    (h2 : dev s2.k = .ok (.dict fs2))
    (he2 : fs2.any (fun p => p.1 == "error") = false)
    (hj2 : lookupStr fs2 "jobs" = some (.list js2)) :
    ((main_run cfg tzdb st now dev).1 = .success ↔
      js2.length = cfg.schedules.length) ∧
    (js2.length ≠ cfg.schedules.length →
      (main_run cfg tzdb st now dev).1 = .exit1) ∧
    (main_run cfg tzdb st now dev).2 =
      s2.trace ++ [⟨"Schedule.List", Option.none⟩] := by
  have hl1 : list_schedules dev ⟨0, []⟩ =
      (⟨1, [⟨"Schedule.List", Option.none⟩]⟩, .ok (.list [])) := by
    simp [list_schedules, rpc_call, h0, topError, he0, pyGet, hj0]
  have hl2 : list_schedules dev s2 =
      (⟨s2.k + 1, s2.trace ++ [⟨"Schedule.List", Option.none⟩]⟩,
       .ok (.list js2)) := by
    simp [list_schedules, rpc_call, h2, topError, he2, pyGet, hj2]
  have hmain : main_run cfg tzdb st now dev =
      (if js2.length = cfg.schedules.length then MainOutcome.success
       else MainOutcome.exit1,
       s2.trace ++ [⟨"Schedule.List", Option.none⟩]) := by
    simp only [main_run]
    rw [hl1]
    simp only [pyLen, List.length_nil, ne_eq, htz, not_true, if_false,
      Bool.not_true, ite_false]
    rw [hc]
    dsimp only
    rw [hl2]
    simp only [pyLen, ne_eq]
    by_cases hlen : js2.length = cfg.schedules.length <;> simp [hlen]
  refine ⟨?_, ?_, ?_⟩
  · rw [hmain]
    by_cases hlen : js2.length = cfg.schedules.length <;> simp [hlen]
  · intro hne
    rw [hmain]
    simp [hne]
  · rw [hmain]

/-- Witness for C2, the mismatch scenario of the spec: two configured
schedules, empty snapshot, two accepted creations, but the device reports
three schedules post-create — the run exits 1. -/
theorem C2_verify_requires_exact_count_witness :
    (main_run cfgW2 tzdbAll stW nowW devW2).1 = .exit1 :=
  (C2_verify_requires_exact_count cfgW2 tzdbAll stW nowW devW2
    [("jobs", .list [])]
    (create_schedules_loop devW2 stW nowW cfgW2.schedules
      ⟨1, [⟨"Schedule.List", Option.none⟩]⟩).1
    [("jobs", .list jobs3)] jobs3
    rfl rfl rfl rfl rfl rfl rfl rfl).2.1 (by decide)

/-! ## C7 -/

/-- C7 counterexample: the claim says an invalid IANA timezone name
aborts the run before any device contact; but config.py has no timezone
validator, so the configuration with timezone Not/AZone validates
successfully and the run issues a Schedule.List request (device contact)
before failing — the zone name only matters once calculate_sun_times
runs, after SNAPSHOT. -/
theorem C7_counterexample_timezone_reaches_device :
    exceptIsOk (validateConfig rawTZbad) = true ∧
    run_main rawTZbad (fun _ => false) stW nowW devEmptyW =
      (.exit1, [⟨"Schedule.List", Option.none⟩]) := by
  exact ⟨rfl, rfl⟩

/-- C7 amended: a missing field or an out-of-range latitude or longitude
is rejected by the pydantic validation, and the run then exits 1 with an
empty request trace — no device contact; but an invalid IANA timezone is
not validated pre-flight: the configuration loads, and with an unknown
zone the run still issues the SNAPSHOT Schedule.List request before
exiting 1. -/
theorem C7_preflight_scope (raw : RawConfig) (tzdb : String → Bool)
    (st : SunTimes) (now : DateTime) (dev : Device) :
    ((raw.shelly_ip = Option.none ∨ raw.switch_id = Option.none ∨
      raw.latitude = Option.none ∨ raw.longitude = Option.none ∨
      raw.timezone = Option.none ∨ raw.schedules = Option.none ∨
      raw.log_level = Option.none ∨ raw.log_file = Option.none ∨
      (∃ v, raw.latitude = some v ∧ ¬((-90 : Rat) ≤ v ∧ v ≤ 90)) ∨
      (∃ v, raw.longitude = some v ∧ ¬((-180 : Rat) ≤ v ∧ v ≤ 180))) →
      exceptIsOk (validateConfig raw) = false ∧
      run_main raw tzdb st now dev = (.exit1, [])) ∧
    (∀ cfg, validateConfig raw = .ok cfg → tzdb cfg.timezone = false →
      run_main raw tzdb st now dev =
        (.exit1, [⟨"Schedule.List", Option.none⟩])) := by
  constructor
  · intro h
    have hv : exceptIsOk (validateConfig raw) = false := by
      rcases hip : raw.shelly_ip with _ | ip
      · simp [validateConfig, hip, exceptIsOk]
      rcases hsw : raw.switch_id with _ | sw
      · simp [validateConfig, hip, hsw, exceptIsOk]
      rcases hla : raw.latitude with _ | la
      · simp [validateConfig, hip, hsw, hla, exceptIsOk]
      rcases hlo : raw.longitude with _ | lo
      · simp [validateConfig, hip, hsw, hla, hlo, exceptIsOk]
      rcases htz2 : raw.timezone with _ | tz
      · simp [validateConfig, hip, hsw, hla, hlo, htz2, exceptIsOk]
      rcases hsc : raw.schedules with _ | schs
      · simp [validateConfig, hip, hsw, hla, hlo, htz2, hsc, exceptIsOk]
      rcases hlv : raw.log_level with _ | lvl
      · simp [validateConfig, hip, hsw, hla, hlo, htz2, hsc, hlv, exceptIsOk]
      rcases hlf : raw.log_file with _ | lf
      · simp [validateConfig, hip, hsw, hla, hlo, htz2, hsc, hlv, hlf,
          exceptIsOk]
      rcases h with h | h | h | h | h | h | h | h | h | h
      · exact absurd h (by simp [hip])
      · exact absurd h (by simp [hsw])
      · exact absurd h (by simp [hla])
      · exact absurd h (by simp [hlo])
      · exact absurd h (by simp [htz2])
      · exact absurd h (by simp [hsc])
      · exact absurd h (by simp [hlv])
      · exact absurd h (by simp [hlf])
      · obtain ⟨v, hv2, hrange⟩ := h
        rw [hla] at hv2
        obtain rfl : la = v := Option.some.inj hv2
        simp only [validateConfig, hip, hsw, hla, hlo, htz2, hsc, hlv, hlf]
        rw [if_pos hrange]
        rfl
      · obtain ⟨v, hv2, hrange⟩ := h
        rw [hlo] at hv2
        obtain rfl : lo = v := Option.some.inj hv2
        simp only [validateConfig, hip, hsw, hla, hlo, htz2, hsc, hlv, hlf]
        by_cases hlat : ((-90 : Rat) ≤ la ∧ la ≤ 90)
        · rw [if_neg (not_not_intro hlat), if_pos hrange]
          rfl
        · rw [if_pos hlat]
          rfl
    refine ⟨hv, ?_⟩
    rcases hve : validateConfig raw with e | cfg
    · unfold run_main
      rw [hve]
    · rw [hve] at hv
      exact absurd hv (by simp [exceptIsOk])
  · intro cfg hok htz
    unfold run_main
    rw [hok]
    have hts := list_schedules_state dev ⟨0, []⟩
    simp only [main_run]
    rcases hls : list_schedules dev ⟨0, []⟩ with ⟨s1, r1⟩
    rw [hls] at hts
    simp only at hts
    subst hts
    rcases r1 with e | schedules
    · rfl
    · dsimp only
      rcases pyLen schedules with e | n
      · rfl
      · by_cases hn : n = 0
        · subst hn
          simp [htz]
        · simp [hn]

/-- Witness for C7 amended, at the spec example latitude 91: validation
rejects the config and the run exits 1 without any device request. -/
theorem C7_preflight_scope_witness :
    exceptIsOk (validateConfig rawLat91) = false ∧
    run_main rawLat91 tzdbAll stW nowW devEmptyW = (.exit1, []) :=
  (C7_preflight_scope rawLat91 tzdbAll stW nowW devEmptyW).1
    (Or.inr (Or.inr (Or.inr (Or.inr (Or.inr (Or.inr (Or.inr (Or.inr
      (Or.inl ⟨91, rfl, by decide⟩)))))))))

end Shelly
